import Mathlib

/-!
# Verification of the `ros2_gremsy` gimbal driver node

A shallow embedding of `src/gremsy.cpp` (the single source file of the
repository `mehmetkillioglu/ros2_gremsy`) together with proofs about its
behaviour.

The embedding models:

* the ROS 2 parameter store as an association list of declared parameters,
  with typed accessors that fail the way `rclcpp` does (an undeclared name
  raises `ParameterNotDeclaredException`; `as_int()` on a parameter holding
  a different type raises `InvalidParameterTypeException`);
* the configuration step performed by the two-argument constructor
  (`declareParameters` followed by the sequence of `get_parameter` /
  `as_*` calls, in source order);
* the one-argument constructor, which initializes `com_port_` to `"COM3"`
  and then constructs and immediately destroys a temporary
  `GremsyDriver(options, "COM3")` instead of delegating;
* the three callbacks (`gimbalStateTimerCallback`, `gimbalGoalTimerCallback`,
  `desiredOrientationCallback`) as pure state transformers that also return
  the messages published / the SDK move command issued;
* an event-step semantics `stepEvent` folding any interleaving of callback
  invocations over the driver state.

MAVLink floats and C++ doubles are modelled as rationals `ℚ`; the unit
conversion constants `DEG_TO_RAD` and `RAD_TO_DEG` are defined in the
header `gremsy.hpp`, which is not part of the sources under study, so every
definition that uses them takes the constant as an explicit argument — all
claims about them are structural (which value is multiplied by which
constant), not about the constant itself.
-/

namespace ros2_gremsy

/-- A ROS 2 parameter value, restricted to the types this node declares. -/
inductive ParamValue where
  | str (s : String)
  | int (i : Int)
  | dbl (d : ℚ)
  | bool (b : Bool)
deriving DecidableEq

/-- Errors raised by the rclcpp parameter interface:
`undeclared n` models `rclcpp::exceptions::ParameterNotDeclaredException`
for name `n`, and `wrongType n` models
`rclcpp::exceptions::InvalidParameterTypeException` when a typed accessor
(`as_int`, `as_string`, `as_bool`) is applied to a parameter holding a value
of a different type. -/
inductive ParamError where
  | undeclared (n : String)
  | wrongType (n : String)
deriving DecidableEq

/-- The parameter store: the list of declared parameters with their values.
`this->get_parameter(n)` succeeds exactly when `n` was declared, and returns
the stored value. -/
def get_parameter : List (String × ParamValue) → String → Except ParamError ParamValue
  | [], n => .error (.undeclared n)
  | p :: ps, n => if p.1 = n then .ok p.2 else get_parameter ps n

/-- `rclcpp::Parameter::as_string()`: succeeds only on string values. -/
def as_string : String → ParamValue → Except ParamError String
  | _, .str s => .ok s
  | n, _ => .error (.wrongType n)

/-- `rclcpp::Parameter::as_int()`: succeeds only on integer values. -/
def as_int : String → ParamValue → Except ParamError Int
  | _, .int i => .ok i
  | n, _ => .error (.wrongType n)

/-- `rclcpp::Parameter::as_bool()`: succeeds only on boolean values. -/
def as_bool : String → ParamValue → Except ParamError Bool
  | _, .bool b => .ok b
  | n, _ => .error (.wrongType n)

/-- The parameter store produced by `GremsyDriver::declareParameters`
(gremsy.cpp lines 173-247): each `declare_parameter(name, default)` call in
source order, with its default value and declared type.  Note the second
entry: the baud-rate parameter is declared under the name `"baudrate"`,
and the two rate parameters are declared as doubles. -/
def declareParameters : List (String × ParamValue) :=
  [("com_port", .str "/dev/ttyUSB0"),
   ("baudrate", .int 115200),
   ("state_poll_rate", .dbl 10),
   ("goal_push_rate", .dbl 60),
   ("gimbal_mode", .int 1),
   ("tilt_axis_input_mode", .int 2),
   ("tilt_axis_stabilize", .bool true),
   ("roll_axis_input_mode", .int 2),
   ("roll_axis_stabilize", .bool true),
   ("pan_axis_input_mode", .int 2),
   ("pan_axis_stabilize", .bool true),
   ("lock_yaw_to_vehicle", .bool true)]

/-- The configuration record held in the driver's member fields, assigned
once by the two-argument constructor (gremsy.cpp lines 25-36).  The two
rates are stored as the `Int` that `as_int()` returns. -/
structure Config where
  com_port : String
  baud_rate : Int
  state_poll_rate : Int
  goal_push_rate : Int
  gimbal_mode : Int
  tilt_axis_input_mode : Int
  tilt_axis_stabilize : Bool
  roll_axis_input_mode : Int
  roll_axis_stabilize : Bool
  pan_axis_input_mode : Int
  pan_axis_stabilize : Bool
  lock_yaw_to_vehicle : Bool
deriving DecidableEq

/-- The sequence of parameter reads performed by the two-argument
constructor (gremsy.cpp lines 25-36), in source order, each one a
`this->get_parameter(name).as_type()` call that can raise.  The names read
here are the names appearing in the source: in particular `"baud_rate"` on
line 26, and `as_int()` for the two rate parameters on lines 27-28. -/
def configStep (store : List (String × ParamValue)) : Except ParamError Config := do
  let com_port ← as_string "com_port" (← get_parameter store "com_port")
  let baud_rate ← as_int "baud_rate" (← get_parameter store "baud_rate")
  let state_poll_rate ← as_int "state_poll_rate" (← get_parameter store "state_poll_rate")
  let goal_push_rate ← as_int "goal_push_rate" (← get_parameter store "goal_push_rate")
  let gimbal_mode ← as_int "gimbal_mode" (← get_parameter store "gimbal_mode")
  let tilt_axis_input_mode ← as_int "tilt_axis_input_mode" (← get_parameter store "tilt_axis_input_mode")
  let tilt_axis_stabilize ← as_bool "tilt_axis_stabilize" (← get_parameter store "tilt_axis_stabilize")
  let roll_axis_input_mode ← as_int "roll_axis_input_mode" (← get_parameter store "roll_axis_input_mode")
  let roll_axis_stabilize ← as_bool "roll_axis_stabilize" (← get_parameter store "roll_axis_stabilize")
  let pan_axis_input_mode ← as_int "pan_axis_input_mode" (← get_parameter store "pan_axis_input_mode")
  let pan_axis_stabilize ← as_bool "pan_axis_stabilize" (← get_parameter store "pan_axis_stabilize")
  let lock_yaw_to_vehicle ← as_bool "lock_yaw_to_vehicle" (← get_parameter store "lock_yaw_to_vehicle")
  pure { com_port := com_port, baud_rate := baud_rate,
         state_poll_rate := state_poll_rate, goal_push_rate := goal_push_rate,
         gimbal_mode := gimbal_mode,
         tilt_axis_input_mode := tilt_axis_input_mode,
         tilt_axis_stabilize := tilt_axis_stabilize,
         roll_axis_input_mode := roll_axis_input_mode,
         roll_axis_stabilize := roll_axis_stabilize,
         pan_axis_input_mode := pan_axis_input_mode,
         pan_axis_stabilize := pan_axis_stabilize,
         lock_yaw_to_vehicle := lock_yaw_to_vehicle }

/-- The payload of a `geometry_msgs::msg::Vector3Stamped` as used here:
a three-component vector of doubles. -/
structure Vec3 where
  x : ℚ
  y : ℚ
  z : ℚ
deriving DecidableEq

/-- The driver's mutable state after the member fields are set.
`goals` models the `goals_` shared pointer (`none` = null), and
`yaw_difference` the `yaw_difference_` double member.  The four booleans
record which start-up effects the constructor actually performed on this
object: creating the four publishers, the subscription, the two wall
timers, and pushing gimbal mode / axis modes to the SDK handle. -/
structure DriverState where
  config : Config
  goals : Option Vec3
  yaw_difference : ℚ
  publishersCreated : Bool
  subscriberCreated : Bool
  timersCreated : Bool
  gimbalConfigured : Bool
deriving DecidableEq

/-- The two-argument constructor `GremsyDriver(options, com_port)`
(gremsy.cpp lines 20-100): runs `declareParameters` and the parameter
reads (`configStep`), then creates publishers, the subscription, the SDK
handles, applies gimbal and axis modes, and creates the two timers.  The
`com_port` argument is accepted but never used: line 25 overwrites
`com_port_` from the parameter store.  `yaw_difference_` is never assigned
in the constructor, so it keeps its indeterminate initial value,
represented by the explicit `uninit_yaw` argument.  The SDK side
(serial start, waiting for the gimbal to turn on) is treated as a black
box that succeeds. -/
def twoArgCtor (store : List (String × ParamValue)) (com_port : String)
    (uninit_yaw : ℚ) : Except ParamError DriverState := do
  let cfg ← configStep store
  pure { config := cfg, goals := none, yaw_difference := uninit_yaw,
         publishersCreated := true, subscriberCreated := true,
         timersCreated := true, gimbalConfigured := true }

/-- The one-argument constructor `GremsyDriver(options)` (gremsy.cpp lines
14-18): the member-initializer list sets `com_port_("COM3")`; the body
`GremsyDriver(options, "COM3");` constructs a TEMPORARY two-argument
driver, which is destroyed at the end of the statement — it does not
delegate.  The constructed object keeps default-initialized members:
null `goals_`, no publishers, no subscription, no timers, no gimbal
configuration, and indeterminate values for the scalar configuration
fields (`uninit_config`) and for `yaw_difference_` (`uninit_yaw`); the
temporary gets its own indeterminate `uninit_temp_yaw`.  An exception
thrown while constructing the temporary propagates. -/
def oneArgCtor (store : List (String × ParamValue)) (uninit_config : Config)
    (uninit_yaw uninit_temp_yaw : ℚ) : Except ParamError DriverState := do
  let self : DriverState :=
    { config := { uninit_config with com_port := "COM3" },
      goals := none, yaw_difference := uninit_yaw,
      publishersCreated := false, subscriberCreated := false,
      timersCreated := false, gimbalConfigured := false }
  let _temp ← twoArgCtor store "COM3" uninit_temp_yaw
  pure self

/-- Topic of the IMU publisher (gremsy.cpp line 40). -/
def imuTopic : String := "~/imu"

/-- Topic of the encoder publisher (gremsy.cpp line 41). -/
def encoderTopic : String := "~/encoder"

/-- Topic of the global mount-orientation publisher (gremsy.cpp lines 42-45). -/
def mountOrientationGlobalTopic : String := "~/mount_orientation_global"

/-- Topic of the local mount-orientation publisher (gremsy.cpp lines 46-49). -/
def mountOrientationLocalTopic : String := "~/mount_orientation_local"

/-- Topic of the desired-mount-orientation subscription (gremsy.cpp lines
52-55). -/
def desiredMountOrientationSubTopic : String := "~/mount_orientation_local"

/-- A `mavlink_raw_imu_t` sample as obtained from
`gimbal_interface_->get_gimbal_raw_imu()`. -/
structure ImuSample where
  time_usec : Nat
  xacc : Int
  yacc : Int
  zacc : Int
  xgyro : Int
  ygyro : Int
  zgyro : Int
  xmag : Int
  ymag : Int
  zmag : Int
deriving DecidableEq

/-- A `mavlink_mount_status_t` sample: the three encoder readings. -/
structure MountStatus where
  pointing_a : Int
  pointing_b : Int
  pointing_c : Int
deriving DecidableEq

/-- A `mavlink_mount_orientation_t` sample: roll, pitch, vehicle-relative
yaw, and drift-corrected absolute yaw, in degrees. -/
structure MountOrientation where
  roll : ℚ
  pitch : ℚ
  yaw : ℚ
  yaw_absolute : ℚ
deriving DecidableEq

/-- One fresh telemetry snapshot, as read from the SDK at the start of a
state-timer tick: the raw IMU sample, the SDK timestamp substituted into
it on line 111, the mount status, and the mount orientation. -/
structure Telemetry where
  raw_imu : ImuSample
  raw_imu_stamp : Nat
  mount_status : MountStatus
  mount_orientation : MountOrientation
deriving DecidableEq

/-- Modelled from the spec: `convertYXZtoQuaternion` is defined in the
header `gremsy.hpp`, which is not under `src/`; the spec says only that a
mount-orientation quaternion is built from the given roll, pitch and yaw
Euler angles, so the quaternion is represented abstractly by the three
Euler-angle arguments it is built from. -/
structure QuatYXZ where
  roll : ℚ
  pitch : ℚ
  yaw : ℚ
deriving DecidableEq

/-- Modelled from the spec: builds the mount-orientation quaternion from
roll, pitch and yaw (see `QuatYXZ`). -/
def convertYXZtoQuaternion (roll pitch yaw : ℚ) : QuatYXZ :=
  { roll := roll, pitch := pitch, yaw := yaw }

/-- Modelled from the spec: `convertImuMavlinkMessageToROSMessage` is
defined in the header `gremsy.hpp`, which is not under `src/`; the spec
says the raw IMU sample is republished, so the ROS message is represented
by the sample it carries. -/
def convertImuMavlinkMessageToROSMessage (m : ImuSample) : ImuSample := m

/-- A message published by the state-timer callback, tagged with the
publisher it goes out on. -/
inductive PublishedMsg where
  | imu (m : ImuSample)
  | encoder (v : Vec3)
  | mountGlobal (q : QuatYXZ)
  | mountLocal (q : QuatYXZ)
deriving DecidableEq

/-- The arguments of the `gimbal_interface_->set_gimbal_move(...)` SDK
call, in positional order: the SDK signature is
`set_gimbal_move(float deltaPitch, float deltaRoll, float deltaYaw)`. -/
structure MoveCmd where
  deltaPitch : ℚ
  deltaRoll : ℚ
  deltaYaw : ℚ
deriving DecidableEq

/-- `GremsyDriver::gimbalStateTimerCallback` (gremsy.cpp lines 106-150):
given the fresh telemetry snapshot `t` read from the SDK this tick, returns
the list of messages published, in publication order, and the updated
driver state.  Line 111 overwrites the IMU sample's `time_usec` with the
SDK timestamp; lines 119-121 convert the encoder readings to radians with
`pointing_b` in `x`, `pointing_a` in `y`, `pointing_c` in `z`; line 129
assigns `yaw_difference_`; lines 132-149 publish the two quaternions. -/
def gimbalStateTimerCallback (DEG_TO_RAD : ℚ) (s : DriverState) (t : Telemetry) :
    List PublishedMsg × DriverState :=
  let imu_mav : ImuSample := { t.raw_imu with time_usec := t.raw_imu_stamp }
  let imu_ros_mag := convertImuMavlinkMessageToROSMessage imu_mav
  let encoder_msg : Vec3 :=
    { x := (t.mount_status.pointing_b : ℚ) * DEG_TO_RAD,
      y := (t.mount_status.pointing_a : ℚ) * DEG_TO_RAD,
      z := (t.mount_status.pointing_c : ℚ) * DEG_TO_RAD }
  let mo := t.mount_orientation
  let yd := DEG_TO_RAD * (mo.yaw_absolute - mo.yaw)
  ([PublishedMsg.imu imu_ros_mag,
    PublishedMsg.encoder encoder_msg,
    PublishedMsg.mountGlobal (convertYXZtoQuaternion mo.roll mo.pitch mo.yaw_absolute),
    PublishedMsg.mountLocal (convertYXZtoQuaternion mo.roll mo.pitch mo.yaw)],
   { s with yaw_difference := yd })

/-- `GremsyDriver::gimbalGoalTimerCallback` (gremsy.cpp lines 152-165):
reads `goals_->vector`; if `goals_` is null (`none`) this is a null-pointer
dereference, modelled as `none`.  Otherwise computes
`z := goals_->vector.z`, adds `yaw_difference_` when `lock_yaw_to_vehicle_`
is set, and issues `set_gimbal_move(RAD_TO_DEG * y, RAD_TO_DEG * x,
RAD_TO_DEG * z)`.  The driver state is not modified. -/
def gimbalGoalTimerCallback (RAD_TO_DEG : ℚ) (s : DriverState) : Option MoveCmd :=
  match s.goals with
  | none => none
  | some g =>
    let z := if s.config.lock_yaw_to_vehicle then g.z + s.yaw_difference else g.z
    some { deltaPitch := RAD_TO_DEG * g.y,
           deltaRoll := RAD_TO_DEG * g.x,
           deltaYaw := RAD_TO_DEG * z }

/-- `GremsyDriver::desiredOrientationCallback` (gremsy.cpp lines 167-171):
unconditionally overwrites the stored `goals_` pointer with the incoming
message. -/
def desiredOrientationCallback (s : DriverState) (msg : Vec3) : DriverState :=
  { s with goals := some msg }

/-- One callback invocation: a state-timer tick carrying the telemetry the
SDK returns at that moment, a goal-timer tick, or the arrival of a
desired-orientation command. -/
inductive Event where
  | stateTick (t : Telemetry)
  | goalTick
  | cmdArrive (v : Vec3)
deriving DecidableEq

/-- The effect of one callback invocation on the driver state.  The goal
timer callback assigns no member (its only effect is the SDK move call,
see `gimbalGoalTimerCallback`), so its state effect is the identity. -/
def stepEvent (DEG_TO_RAD : ℚ) (s : DriverState) : Event → DriverState
  | .stateTick t => (gimbalStateTimerCallback DEG_TO_RAD s t).2
  | .goalTick => s
  | .cmdArrive v => desiredOrientationCallback s v

/-- The last command value in an event sequence, if any command arrived. -/
def lastCmd : List Event → Option Vec3
  | [] => none
  | e :: es =>
    match lastCmd es with
    | some v => some v
    | none =>
      match e with
      | .cmdArrive v => some v
      | _ => none

/-- A parameter store on which `configStep` succeeds: every name the
constructor reads is declared under that exact name with the type the
accessor expects.  Used to exercise the constructors and callbacks on
concrete inputs. -/
def okStore : List (String × ParamValue) :=
  [("com_port", .str "/dev/ttyUSB0"),
   ("baud_rate", .int 115200),
   ("state_poll_rate", .int 10),
   ("goal_push_rate", .int 60),
   ("gimbal_mode", .int 1),
   ("tilt_axis_input_mode", .int 2),
   ("tilt_axis_stabilize", .bool true),
   ("roll_axis_input_mode", .int 2),
   ("roll_axis_stabilize", .bool true),
   ("pan_axis_input_mode", .int 2),
   ("pan_axis_stabilize", .bool true),
   ("lock_yaw_to_vehicle", .bool true)]

/-- The configuration `configStep okStore` produces. -/
def okConfig : Config :=
  { com_port := "/dev/ttyUSB0", baud_rate := 115200,
    state_poll_rate := 10, goal_push_rate := 60, gimbal_mode := 1,
    tilt_axis_input_mode := 2, tilt_axis_stabilize := true,
    roll_axis_input_mode := 2, roll_axis_stabilize := true,
    pan_axis_input_mode := 2, pan_axis_stabilize := true,
    lock_yaw_to_vehicle := true }

/-- The driver state right after a successful two-argument construction
over `okStore`, with `yaw_difference_` starting at 0. -/
def ctorState : DriverState :=
  { config := okConfig, goals := none, yaw_difference := 0,
    publishersCreated := true, subscriberCreated := true,
    timersCreated := true, gimbalConfigured := true }

/-- `ctorState` after one desired-orientation command `⟨1, 2, 3⟩`. -/
def stateWithGoal : DriverState :=
  desiredOrientationCallback ctorState { x := 1, y := 2, z := 3 }

/-- Claim C1: the claim says the configuration step reads the baud rate
under the same name it declared it and does not fail with an
undeclared-parameter error.  The code declares `"baudrate"` (line 182) but
reads `"baud_rate"` (line 26), so over the store produced by
`declareParameters` the read — and with it the whole configuration step
and the two-argument constructor — fails with an undeclared-parameter
error for `"baud_rate"`. -/
theorem baud_rate_read_fails_undeclared (cp : String) (uy : ℚ) :
    get_parameter declareParameters "baudrate" = .ok (.int 115200) ∧
    get_parameter declareParameters "baud_rate" = .error (.undeclared "baud_rate") ∧
    configStep declareParameters = .error (.undeclared "baud_rate") ∧
    twoArgCtor declareParameters cp uy = .error (.undeclared "baud_rate") :=
  ⟨rfl, rfl, rfl, rfl⟩

/-- Claim C2: the claim says the two poll-rate parameters are read as the
type under which they were declared (double) without a type error.  The
code declares them as doubles with defaults 10.0 and 60.0 (lines 187-197)
but reads them with `as_int()` (lines 27-28), which fails with an
invalid-parameter-type error on a double-typed parameter. -/
theorem poll_rates_as_int_type_error :
    get_parameter declareParameters "state_poll_rate" = .ok (.dbl 10) ∧
    as_int "state_poll_rate" (.dbl 10) = .error (.wrongType "state_poll_rate") ∧
    get_parameter declareParameters "goal_push_rate" = .ok (.dbl 60) ∧
    as_int "goal_push_rate" (.dbl 60) = .error (.wrongType "goal_push_rate") :=
  ⟨rfl, rfl, rfl, rfl⟩

/-- Claim C3: the claim says both constructors perform the configuration
step on the constructed object itself.  For any store on which the
configuration step succeeds, the one-argument constructor nevertheless
returns an object with `com_port_ = "COM3"`, a null `goals_`, and none of
the start-up effects (publishers, subscription, timers, gimbal
configuration) — the configuration is applied only to the discarded
temporary — while the two-argument constructor does configure the
constructed object. -/
theorem one_arg_ctor_discards_configuration
    (store : List (String × ParamValue)) (cfg u : Config)
    (uy uty : ℚ) (cp : String)
    (h : configStep store = .ok cfg) :
    oneArgCtor store u uy uty =
      .ok { config := { u with com_port := "COM3" },
            goals := none, yaw_difference := uy,
            publishersCreated := false, subscriberCreated := false,
            timersCreated := false, gimbalConfigured := false } ∧
    twoArgCtor store cp uty =
      .ok { config := cfg, goals := none, yaw_difference := uty,
            publishersCreated := true, subscriberCreated := true,
            timersCreated := true, gimbalConfigured := true } := by
  unfold oneArgCtor twoArgCtor
  rw [h]
  exact ⟨rfl, rfl⟩

/-- Witness for `one_arg_ctor_discards_configuration` at the concrete
store `okStore`. -/
theorem one_arg_ctor_discards_configuration_witness :
    oneArgCtor okStore okConfig 0 0 =
      .ok { config := { okConfig with com_port := "COM3" },
            goals := none, yaw_difference := 0,
            publishersCreated := false, subscriberCreated := false,
            timersCreated := false, gimbalConfigured := false } ∧
    twoArgCtor okStore "COM3" 0 = .ok ctorState :=
  one_arg_ctor_discards_configuration okStore okConfig okConfig 0 0 "COM3" rfl

/-- Claim C4: for any successfully constructed driver state, running the
goal-timer callback before any desired-orientation command has arrived
dereferences the null `goals_` pointer (modelled as `none`), while after
at least one command has arrived the callback succeeds: the command-push
operation is safe only under the precondition that a command was
received. -/
theorem goal_callback_null_deref_before_first_command
    (RAD_TO_DEG uy : ℚ) (store : List (String × ParamValue)) (cp : String)
    (st : DriverState) (v : Vec3)
    (h : twoArgCtor store cp uy = .ok st) :
    gimbalGoalTimerCallback RAD_TO_DEG st = none ∧
    (gimbalGoalTimerCallback RAD_TO_DEG (desiredOrientationCallback st v)).isSome := by
  unfold twoArgCtor at h
  cases hc : configStep store with
  | error e => rw [hc] at h; exact absurd h (by simp [Bind.bind, Except.bind])
  | ok cfg =>
    rw [hc] at h
    simp only [Bind.bind, Except.bind, pure, Except.pure, Except.ok.injEq] at h
    subst h
    exact ⟨rfl, rfl⟩

/-- Witness for `goal_callback_null_deref_before_first_command` at the
concrete store `okStore` and command `⟨1, 2, 3⟩`. -/
theorem goal_callback_null_deref_witness :
    gimbalGoalTimerCallback 1 ctorState = none ∧
    (gimbalGoalTimerCallback 1
      (desiredOrientationCallback ctorState { x := 1, y := 2, z := 3 })).isSome :=
  goal_callback_null_deref_before_first_command 1 0 okStore "COM3" ctorState
    { x := 1, y := 2, z := 3 } rfl

/-- Claim C5: on a command-push tick with a stored command `g`, the SDK
move call receives pitch from `g.y`, roll from `g.x`, and yaw from `g.z`
plus the yaw-offset correction exactly when `lock_yaw_to_vehicle_` is set,
all three multiplied by the radians-to-degrees factor. -/
theorem goal_callback_move_command
    (RAD_TO_DEG : ℚ) (s : DriverState) (g : Vec3) (h : s.goals = some g) :
    gimbalGoalTimerCallback RAD_TO_DEG s =
      some { deltaPitch := RAD_TO_DEG * g.y, deltaRoll := RAD_TO_DEG * g.x,
             deltaYaw := RAD_TO_DEG *
               (if s.config.lock_yaw_to_vehicle then g.z + s.yaw_difference
                else g.z) } := by
  unfold gimbalGoalTimerCallback
  rw [h]

/-- Witness for `goal_callback_move_command`: with the
radians-to-degrees factor set to 2, command `⟨1, 2, 3⟩`, yaw offset 0 and
the lock flag set, the move command is `⟨4, 2, 6⟩`. -/
theorem goal_callback_move_command_witness :
    gimbalGoalTimerCallback 2 stateWithGoal =
      some { deltaPitch := 4, deltaRoll := 2, deltaYaw := 6 } := by
  have h := goal_callback_move_command 2 stateWithGoal { x := 1, y := 2, z := 3 } rfl
  rw [h]
  norm_num [stateWithGoal, desiredOrientationCallback, ctorState, okConfig]

/-- Claim C6: over any sequence of callback invocations, the stored
`goals_` value equals the most recently received command (last-write-wins,
no queue), falling back to the starting value when no command arrived; and
the command-push callback does not modify the driver state at all (in
particular no staleness check mutates or clears the stored command). -/
theorem goals_last_write_wins
    (DEG_TO_RAD : ℚ) (s : DriverState) (evs : List Event) :
    (evs.foldl (stepEvent DEG_TO_RAD) s).goals =
      (match lastCmd evs with
       | some v => some v
       | none => s.goals) ∧
    stepEvent DEG_TO_RAD s Event.goalTick = s := by
  refine ⟨?_, rfl⟩
  induction evs generalizing s with
  | nil => rfl
  | cons e es ih =>
    rw [List.foldl_cons, ih]
    cases hl : lastCmd es with
    | some v => simp [lastCmd, hl]
    | none => cases e <;> simp [lastCmd, hl, stepEvent, desiredOrientationCallback,
        gimbalStateTimerCallback]

/-- Claim C7: every state-timer tick publishes exactly four messages, in
order: the raw IMU sample (with the SDK timestamp substituted), the
encoder angles multiplied by the degrees-to-radians factor with
`pointing_b` in `x`, `pointing_a` in `y` and `pointing_c` in `z`, the
global-frame quaternion built from roll, pitch and absolute yaw, and the
local-frame quaternion built from roll, pitch and relative yaw. -/
theorem state_callback_publishes_four
    (DEG_TO_RAD : ℚ) (s : DriverState) (t : Telemetry) :
    (gimbalStateTimerCallback DEG_TO_RAD s t).1 =
      [PublishedMsg.imu
         (convertImuMavlinkMessageToROSMessage
           { t.raw_imu with time_usec := t.raw_imu_stamp }),
       PublishedMsg.encoder
         { x := (t.mount_status.pointing_b : ℚ) * DEG_TO_RAD,
           y := (t.mount_status.pointing_a : ℚ) * DEG_TO_RAD,
           z := (t.mount_status.pointing_c : ℚ) * DEG_TO_RAD },
       PublishedMsg.mountGlobal
         (convertYXZtoQuaternion t.mount_orientation.roll
           t.mount_orientation.pitch t.mount_orientation.yaw_absolute),
       PublishedMsg.mountLocal
         (convertYXZtoQuaternion t.mount_orientation.roll
           t.mount_orientation.pitch t.mount_orientation.yaw)] ∧
    (gimbalStateTimerCallback DEG_TO_RAD s t).1.length = 4 :=
  ⟨rfl, rfl⟩

/-- Claim C8: every state-timer tick recomputes `yaw_difference_` as the
degrees-to-radians factor times the difference between the snapshot's
absolute yaw and its vehicle-relative yaw, and changes no other driver
state: the resulting state is the old one with only `yaw_difference`
replaced. -/
theorem state_callback_retains_only_yaw_difference
    (DEG_TO_RAD : ℚ) (s : DriverState) (t : Telemetry) :
    (gimbalStateTimerCallback DEG_TO_RAD s t).2 =
      { s with yaw_difference :=
          DEG_TO_RAD * (t.mount_orientation.yaw_absolute - t.mount_orientation.yaw) } :=
  rfl

/-- Claim C9: no callback invocation — state-timer tick, goal-timer tick,
or desired-orientation arrival — modifies any configuration field; the
configuration component of the driver state is invariant under any single
event and under any sequence of events. -/
theorem callbacks_preserve_config
    (DEG_TO_RAD : ℚ) (s : DriverState) (e : Event) (evs : List Event) :
    (stepEvent DEG_TO_RAD s e).config = s.config ∧
    (evs.foldl (stepEvent DEG_TO_RAD) s).config = s.config := by
  constructor
  · cases e <;> rfl
  · induction evs generalizing s with
    | nil => rfl
    | cons e es ih =>
      rw [List.foldl_cons, ih]
      cases e <;> rfl

/-- Claim C10: the topic of the desired-orientation subscription is
literally the same string as the topic of the local mount-orientation
publisher, and differs from the other three publisher topics: the
driver's own local-orientation telemetry is fed back as its command
input. -/
theorem subscription_topic_equals_local_publisher_topic :
    desiredMountOrientationSubTopic = mountOrientationLocalTopic ∧
    desiredMountOrientationSubTopic ≠ mountOrientationGlobalTopic ∧
    desiredMountOrientationSubTopic ≠ imuTopic ∧
    desiredMountOrientationSubTopic ≠ encoderTopic := by
  refine ⟨rfl, ?_, ?_, ?_⟩ <;> decide

end ros2_gremsy
